import Mathlib

/-!
Shallow embedding of `climate_change_agriculture_sa.py`.

The only real logic in the repository is the synthetic data generator
`load_data` (decorated `@st.cache_data`) and the derived display values of the
Crop Health tab (health-index mean, season-button state, image fetch with a
placeholder fallback).  Random draws (`np.random.normal`) are modelled as
explicit noise inputs: the generator becomes a function of the noise values
drawn, and properties are proved for every possible noise assignment.
Python floats are modelled as rationals (the formulas use only decimal
literals and the claims are about exact formula values and order bounds).
-/

namespace ClimateSA

/-- Bounding box of a region: `[west, south, east, north]` (source lines 108-110). -/
structure BBox where
  west : ℚ
  south : ℚ
  east : ℚ
  north : ℚ
deriving DecidableEq, Repr

/-- The `regions` dict of `load_data` (source lines 107-111), as an association
list preserving insertion order. -/
def regionsList : List (String × BBox) :=
  [("Western Cape Wheat", ⟨18.4, -34.2, 20.5, -33.0⟩),
   ("Free State Maize", ⟨26.5, -29.0, 28.5, -27.0⟩),
   ("KZN Sugarcane", ⟨30.5, -29.5, 31.5, -28.5⟩)]

/-- Historical years: `years = list(range(2010, 2024))` (source line 114). -/
def years : List ℕ := List.range' 2010 14

/-- Future years: `future_years = list(range(2024, 2050))` (source line 137). -/
def future_years : List ℕ := List.range' 2024 26

/-- One row of `climate_df` (source lines 117-121). -/
structure ClimateRecord where
  year : ℕ
  temp_change : ℚ
  rainfall_change : ℚ
deriving DecidableEq, Repr

/-- One row of `crop_health_df` (source lines 128-133). -/
structure CropHealthRecord where
  region : String
  year : ℕ
  crop_health_index : ℚ
  crop_type : String
deriving DecidableEq, Repr

/-- One row of `projections_df` (source lines 142-147). -/
structure ProjectionRecord where
  year : ℕ
  projected_temp : ℚ
  projected_rain : ℚ
  projected_crop_health : ℚ
deriving DecidableEq, Repr

/-- Decides whether `ns` occurs as a contiguous subsequence of `hs` (used to
model Python's substring test). -/
def occursIn : List Char → List Char → Bool
  | ns, [] => ns.isEmpty
  | ns, h :: t => ns.isPrefixOf (h :: t) || occursIn ns t

/-- Python's substring test `needle in hay` on strings. -/
def strContains (hay needle : String) : Bool :=
  occursIn needle.toList hay.toList

/-- The crop-type conditional expression of source line 132:
`"Wheat" if "Wheat" in region else "Maize" if "Maize" in region else "Sugarcane"`. -/
def cropTypeOf (region : String) : String :=
  if strContains region "Wheat" then "Wheat"
  else if strContains region "Maize" then "Maize"
  else "Sugarcane"

/-- The random draws consumed by one execution of `load_data`, made explicit.
Each `np.random.normal(...)` call site gets its own noise function, indexed by
the loop variables at that site. -/
structure Noise where
  temp : ℕ → ℚ
  rain : ℕ → ℚ
  health : String → ℕ → ℚ
  ftemp : ℕ → ℚ
  frain : ℕ → ℚ
  fhealth : ℕ → ℚ

/-- The four tables returned by `load_data` (source line 149). -/
structure LoadDataResult where
  regions : List (String × BBox)
  climate_df : List ClimateRecord
  crop_health_df : List CropHealthRecord
  projections_df : List ProjectionRecord
deriving Repr

/-- Embedding of `load_data` (source lines 104-149), as a function of the
noise drawn. -/
def load_data (n : Noise) : LoadDataResult :=
  let climate_df : List ClimateRecord :=
    years.map (fun year =>
      { year := year
        temp_change := 0.1 * ((year : ℚ) - 2010) + n.temp year
        rainfall_change := -2 * ((year : ℚ) - 2010) + n.rain year })
  let crop_health_df : List CropHealthRecord :=
    (regionsList.map Prod.fst).flatMap (fun region =>
      years.map (fun (year : ℕ) =>
        let health := 80 - 0.8 * ((year : ℚ) - 2010) + n.health region year
        { region := region
          year := year
          crop_health_index := max 60 health
          crop_type := cropTypeOf region }))
  let projections_df : List ProjectionRecord :=
    future_years.map (fun year =>
      { year := year
        projected_temp := 0.15 * ((year : ℚ) - 2010) + n.ftemp year
        projected_rain := -3 * ((year : ℚ) - 2010) + n.frain year
        projected_crop_health :=
          max 40 (80 - 1.0 * ((year : ℚ) - 2010) + n.fhealth year) })
  { regions := regionsList
    climate_df := climate_df
    crop_health_df := crop_health_df
    projections_df := projections_df }

/-- The all-zero noise assignment (deterministic test mode). -/
def zeroNoise : Noise :=
  { temp := fun _ => 0, rain := fun _ => 0, health := fun _ _ => 0
    ftemp := fun _ => 0, frain := fun _ => 0, fhealth := fun _ => 0 }

/-! ## Tab 2 image fetch (source lines 357-379) -/

/-- A `requests.get` response as used by the tab-2 image block: status code
and raw payload. -/
structure HttpResponse where
  status_code : ℕ
  raw : String
deriving DecidableEq, Repr

/-- Environment of one execution of the tab-2 image block: the outcome of
`requests.get(image_urls[region], stream=True)` (a response, or a transport
exception carrying a message) and the behaviour of `Image.open` on the raw
payload (a decoded image, or a decoding exception). -/
structure FetchEnv where
  response : Except String HttpResponse
  image_open : String → Except String String

/-- What ends up displayed in place of the satellite image. -/
inductive ShownImage where
  | fetched (img : String)
  | placeholder
deriving DecidableEq, Repr

/-- Result of the image block: the displayed image and the optional warning. -/
structure ImagePanel where
  image : ShownImage
  warning : Option String
deriving DecidableEq, Repr

/-- The `try` block body (source lines 366-374): get the response; on status
200 open and show the image; otherwise raise `HTTP Error: <code>`. -/
def tryFetchImage (env : FetchEnv) : Except String String := do
  let response ← env.response
  if response.status_code == 200 then
    env.image_open response.raw
  else
    Except.error ("HTTP Error: " ++ toString response.status_code)

/-- The whole `try`/`except` block (source lines 365-379): any failure is
caught locally and replaced by a warning plus the fixed placeholder image. -/
def tab2ImageBlock (env : FetchEnv) : ImagePanel :=
  match tryFetchImage env with
  | .ok img => { image := .fetched img, warning := none }
  | .error e =>
    { image := .placeholder
      warning := some ("Unable to load satellite image. Error: " ++ e) }

/-! ## `@st.cache_data` memoization (source line 104) -/

/-- Modelled from the spec: the `@st.cache_data` decoration on `load_data`
(source line 104) — the memoization machinery lives in the streamlit library,
outside this repository.  Per the spec it computes the result at most once
per process lifetime and reuses it for every subsequent read, with no
invalidation and no TTL.  One cached call: a hit returns the stored tables, a
miss computes them from this call's noise draws and stores them. -/
def cachedCall (cache : Option LoadDataResult) (n : Noise) :
    LoadDataResult × Option LoadDataResult :=
  match cache with
  | some v => (v, some v)
  | none => (load_data n, some (load_data n))

/-- The results observed by a sequence of `load_data()` invocations within
one process, each invocation with its own potential noise draws, threading
the cache. -/
def observedResults : Option LoadDataResult → List Noise → List LoadDataResult
  | _, [] => []
  | cache, n :: ns =>
    (cachedCall cache n).1 :: observedResults (cachedCall cache n).2 ns

/-! ## Tab 2 health indicator (source lines 382-387) -/

/-- One crop-health row as built by the generator's inner loop. -/
def mkRow (n : Noise) (region : String) (year : ℕ) : CropHealthRecord :=
  { region := region
    year := year
    crop_health_index := max 60 (80 - 0.8 * ((year : ℚ) - 2010) + n.health region year)
    crop_type := cropTypeOf region }

/-- The rows selected by the health indicator's filter (source lines
382-385): rows of `crop_health_df` matching the chosen region and year. -/
def healthRows (df : List CropHealthRecord) (region : String) (year : ℕ) :
    List CropHealthRecord :=
  df.filter (fun rec => rec.region == region && rec.year == year)

/-- pandas `.mean()` over the selected "Crop Health Index" column (source
line 385): sum of the selected values divided by their count. -/
def healthValue (df : List CropHealthRecord) (region : String) (year : ℕ) : ℚ :=
  ((healthRows df region year).map CropHealthRecord.crop_health_index).sum /
    (healthRows df region year).length

/-! ## Tab 2 season selection (source lines 301-324) -/

/-- The values returned by the three season `st.button` calls on one script
rerun (source lines 304-309). -/
structure SeasonButtons where
  planting_btn : Bool
  growth_btn : Bool
  harvest_btn : Bool
deriving DecidableEq, Repr

/-- The `st.session_state.crop_season` slot: `none` until first written. -/
structure SessionState where
  crop_season : Option String
deriving DecidableEq, Repr

/-- One execution of the season-selection code (source lines 312-321): each
pressed button overwrites the season in order, then the default-assignment
sets "Planting" when the key is still unset. -/
def seasonUpdate (s : SessionState) (b : SeasonButtons) : SessionState :=
  let s₁ := if b.planting_btn then { crop_season := some "Planting" } else s
  let s₂ := if b.growth_btn then { crop_season := some "Growth" } else s₁
  let s₃ := if b.harvest_btn then { crop_season := some "Harvest" } else s₂
  if s₃.crop_season = none then { crop_season := some "Planting" } else s₃

/-- The session state after a sequence of reruns, starting from a fresh
session in which `crop_season` was never set. -/
def runSeasons (bs : List SeasonButtons) : SessionState :=
  bs.foldl seasonUpdate { crop_season := none }

/-! ## Helper lemmas -/

/-- Evaluating the try block when `requests.get` raised. -/
theorem tryFetchImage_of_error (env : FetchEnv) (m : String)
    (hm : env.response = .error m) : tryFetchImage env = .error m := by
  unfold tryFetchImage
  rw [hm]
  rfl

/-- Evaluating the try block when `requests.get` returned a response. -/
theorem tryFetchImage_of_ok (env : FetchEnv) (resp : HttpResponse)
    (hresp : env.response = .ok resp) :
    tryFetchImage env =
      if resp.status_code == 200 then env.image_open resp.raw
      else .error ("HTTP Error: " ++ toString resp.status_code) := by
  unfold tryFetchImage
  rw [hresp]
  rfl

/-- Rows generated for a different region never pass the filter. -/
theorem healthRows_map_ne (n : Noise) (r' r : String) (y : ℕ) (ys : List ℕ)
    (h : r' ≠ r) :
    (ys.map (mkRow n r')).filter
      (fun rec => rec.region == r && rec.year == y) = [] := by
  rw [List.filter_eq_nil_iff]
  intro b hb
  obtain ⟨z, -, rfl⟩ := List.mem_map.1 hb
  simp [mkRow, h]

/-- Rows of the right region but absent year never pass the filter. -/
theorem healthRows_map_not_mem (n : Noise) (r : String) (y : ℕ) (ys : List ℕ)
    (hy : y ∉ ys) :
    (ys.map (mkRow n r)).filter
      (fun rec => rec.region == r && rec.year == y) = [] := by
  rw [List.filter_eq_nil_iff]
  intro b hb
  obtain ⟨z, hz, rfl⟩ := List.mem_map.1 hb
  simp only [mkRow, beq_self_eq_true, Bool.true_and, Bool.not_eq_true,
    beq_eq_false_iff_ne]
  rintro rfl
  exact hy hz

/-- Over a duplicate-free year list containing `y`, the filter keeps exactly
the one row generated for `y`. -/
theorem healthRows_map_eq (n : Noise) (r : String) (y : ℕ) (ys : List ℕ)
    (hnd : ys.Nodup) (hy : y ∈ ys) :
    (ys.map (mkRow n r)).filter
      (fun rec => rec.region == r && rec.year == y) = [mkRow n r y] := by
  induction ys with
  | nil => cases hy
  | cons a t ih =>
    rw [List.map_cons, List.filter_cons]
    rcases List.mem_cons.1 hy with rfl | hyt
    · have hp : ((mkRow n r y).region == r && (mkRow n r y).year == y) = true := by
        simp [mkRow]
      rw [hp, if_pos rfl]
      have hnot : y ∉ t := (List.nodup_cons.1 hnd).1
      rw [healthRows_map_not_mem n r y t hnot]
    · have hne : a ≠ y := by
        rintro rfl
        exact (List.nodup_cons.1 hnd).1 hyt
      have hp : ((mkRow n r a).region == r && (mkRow n r a).year == y) = false := by
        simp [mkRow, hne]
      rw [hp]
      simpa using ih (List.nodup_cons.1 hnd).2 hyt

/-- The generated crop-health table, factored through `mkRow`. -/
theorem crop_health_df_eq (n : Noise) :
    (load_data n).crop_health_df =
      (regionsList.map Prod.fst).flatMap (fun r => years.map (mkRow n r)) := rfl

/-- The historical year list has no duplicates. -/
theorem years_nodup : years.Nodup := by
  decide

/-- A rerun keeps the season within the three valid values (or fills in the
default when the slot was never written). -/
theorem seasonUpdate_valid (s : SessionState) (b : SeasonButtons)
    (hs : s.crop_season = none ∨ s.crop_season = some "Planting" ∨
      s.crop_season = some "Growth" ∨ s.crop_season = some "Harvest") :
    (seasonUpdate s b).crop_season = some "Planting" ∨
    (seasonUpdate s b).crop_season = some "Growth" ∨
    (seasonUpdate s b).crop_season = some "Harvest" := by
  obtain ⟨cs⟩ := s
  obtain ⟨bp, bg, bh⟩ := b
  rcases hs with h | h | h | h <;> simp only at h <;> subst h <;>
    cases bp <;> cases bg <;> cases bh <;> simp [seasonUpdate]

/-- After any run prefix the slot is unset or holds a valid season. -/
theorem runSeasons_valid (bs : List SeasonButtons) :
    (runSeasons bs).crop_season = none ∨
    (runSeasons bs).crop_season = some "Planting" ∨
    (runSeasons bs).crop_season = some "Growth" ∨
    (runSeasons bs).crop_season = some "Harvest" := by
  rw [runSeasons]
  generalize hinit : ({ crop_season := none } : SessionState) = s
  have hs : s.crop_season = none ∨ s.crop_season = some "Planting" ∨
      s.crop_season = some "Growth" ∨ s.crop_season = some "Harvest" := by
    rw [← hinit]
    exact Or.inl rfl
  clear hinit
  induction bs generalizing s with
  | nil => exact hs
  | cons b t ih =>
    rw [List.foldl_cons]
    exact ih _ (Or.inr (seasonUpdate_valid s b hs))

/-- A rerun with no button pressed leaves a valid season unchanged and turns
an unset slot into "Planting". -/
theorem seasonUpdate_no_press (s : SessionState) (b : SeasonButtons)
    (hb : b.planting_btn = false ∧ b.growth_btn = false ∧ b.harvest_btn = false)
    (hs : s.crop_season = none ∨ s.crop_season = some "Planting") :
    (seasonUpdate s b).crop_season = some "Planting" := by
  obtain ⟨cs⟩ := s
  obtain ⟨bp, bg, bh⟩ := b
  obtain ⟨rfl, rfl, rfl⟩ := hb
  rcases hs with h | h <;> simp only at h <;> subst h <;> simp [seasonUpdate]

/-- Folding press-free reruns keeps the slot unset or at "Planting". -/
theorem foldl_no_press (bs : List SeasonButtons) (s : SessionState)
    (hbs : ∀ b' ∈ bs, b'.planting_btn = false ∧ b'.growth_btn = false ∧
      b'.harvest_btn = false)
    (hs : s.crop_season = none ∨ s.crop_season = some "Planting") :
    (bs.foldl seasonUpdate s).crop_season = none ∨
    (bs.foldl seasonUpdate s).crop_season = some "Planting" := by
  induction bs generalizing s with
  | nil => exact hs
  | cons b' t ih =>
    rw [List.foldl_cons]
    exact ih _ (fun x hx => hbs x (List.mem_cons.2 (Or.inr hx)))
      (Or.inr (seasonUpdate_no_press s b' (hbs b' (List.mem_cons_self b' t)) hs))

/-! ## Claims -/

/-- C1: every historical crop-health index produced by `load_data` is at least
60 and every projected crop-health index is at least 40, for every possible
assignment of noise values. -/
theorem C1_clamping_floors (n : Noise) :
    (∀ r ∈ (load_data n).crop_health_df, 60 ≤ r.crop_health_index) ∧
    (∀ p ∈ (load_data n).projections_df, 40 ≤ p.projected_crop_health) := by
  constructor
  · intro r hr
    simp only [load_data, List.mem_flatMap, List.mem_map] at hr
    obtain ⟨region, -, y, -, rfl⟩ := hr
    exact le_max_left _ _
  · intro p hp
    simp only [load_data, List.mem_map] at hp
    obtain ⟨y, -, rfl⟩ := hp
    exact le_max_left _ _

/-- Witness for C1 at zero noise on the first row of each table. -/
theorem C1_clamping_floors_witness :
    60 ≤ ((load_data zeroNoise).crop_health_df.get
      ⟨0, by decide⟩).crop_health_index ∧
    40 ≤ ((load_data zeroNoise).projections_df.get
      ⟨0, by decide⟩).projected_crop_health :=
  ⟨(C1_clamping_floors zeroNoise).1 _ (List.get_mem _ _ _),
   (C1_clamping_floors zeroNoise).2 _ (List.get_mem _ _ _)⟩

/-- C2: the tables range over contiguous years with no gaps — the climate
table's years are exactly 2010..2023 (14 rows), the crop-health table is the
14 years for each of the 3 regions in order (42 rows), and the projection
table's years are exactly 2024..2049 (26 rows). -/
theorem C2_table_shapes (n : Noise) :
    (load_data n).climate_df.map ClimateRecord.year = List.range' 2010 14 ∧
    (load_data n).climate_df.length = 14 ∧
    (load_data n).crop_health_df.map (fun r => (r.region, r.year)) =
      ["Western Cape Wheat", "Free State Maize", "KZN Sugarcane"].flatMap
        (fun region => (List.range' 2010 14).map (fun y => (region, y))) ∧
    (load_data n).crop_health_df.length = 42 ∧
    (load_data n).projections_df.map ProjectionRecord.year = List.range' 2024 26 ∧
    (load_data n).projections_df.length = 26 :=
  ⟨rfl, rfl, rfl, rfl, rfl, rfl⟩

/-- C3: the region table is exactly the three expected regions, and every
crop-health row's crop type is derived from its region name's substring, so
the same region always carries the same single crop type, one of
Wheat/Maize/Sugarcane. -/
theorem C3_regions_and_crop_types (n : Noise) :
    (load_data n).regions.map Prod.fst =
      ["Western Cape Wheat", "Free State Maize", "KZN Sugarcane"] ∧
    ∀ r ∈ (load_data n).crop_health_df,
      r.crop_type = cropTypeOf r.region ∧
      ((r.region = "Western Cape Wheat" ∧ r.crop_type = "Wheat") ∨
       (r.region = "Free State Maize" ∧ r.crop_type = "Maize") ∨
       (r.region = "KZN Sugarcane" ∧ r.crop_type = "Sugarcane")) := by
  refine ⟨rfl, ?_⟩
  intro r hr
  simp only [load_data, List.mem_flatMap, List.mem_map] at hr
  obtain ⟨region, ⟨⟨name, bbox⟩, hmem, rfl⟩, y, -, rfl⟩ := hr
  simp only [regionsList, List.mem_cons, List.not_mem_nil, or_false] at hmem
  rcases hmem with ⟨rfl, rfl⟩ | ⟨rfl, rfl⟩ | ⟨rfl, rfl⟩
  · exact ⟨rfl, Or.inl ⟨rfl, rfl⟩⟩
  · exact ⟨rfl, Or.inr (Or.inl ⟨rfl, rfl⟩)⟩
  · exact ⟨rfl, Or.inr (Or.inr ⟨rfl, rfl⟩)⟩

/-- Witness for C3 at zero noise on a concrete Free State row (row 15 of the
crop-health table, i.e. the second region's second year). -/
theorem C3_regions_and_crop_types_witness :
    ((load_data zeroNoise).crop_health_df.get ⟨15, by decide⟩).crop_type =
      cropTypeOf ((load_data zeroNoise).crop_health_df.get ⟨15, by decide⟩).region :=
  ((C3_regions_and_crop_types zeroNoise).2 _ (List.get_mem _ _ _)).1

/-- C4: with all noise fixed to zero, the generator yields temperature
anomaly 0 for 2010 and 1 for 2020 in the historical table, and
0.15 * (2024 - 2010) = 2.1 for 2024 in the projection table. -/
theorem C4_zero_noise_values :
    ((load_data zeroNoise).climate_df.get ⟨0, by decide⟩).year = 2010 ∧
    ((load_data zeroNoise).climate_df.get ⟨0, by decide⟩).temp_change = 0 ∧
    ((load_data zeroNoise).climate_df.get ⟨10, by decide⟩).year = 2020 ∧
    ((load_data zeroNoise).climate_df.get ⟨10, by decide⟩).temp_change = 1 ∧
    ((load_data zeroNoise).projections_df.get ⟨0, by decide⟩).year = 2024 ∧
    ((load_data zeroNoise).projections_df.get ⟨0, by decide⟩).projected_temp =
      0.15 * ((2024 : ℚ) - 2010) ∧
    0.15 * ((2024 : ℚ) - 2010) = 2.1 := by
  refine ⟨rfl, ?_, rfl, ?_, rfl, ?_, ?_⟩
  · show (0.1 : ℚ) * (((2010 : ℕ) : ℚ) - 2010) + 0 = 0
    norm_num
  · show (0.1 : ℚ) * (((2020 : ℕ) : ℚ) - 2010) + 0 = 1
    norm_num
  · show (0.15 : ℚ) * (((2024 : ℕ) : ℚ) - 2010) + 0 = 0.15 * ((2024 : ℚ) - 2010)
    norm_num
  · norm_num

/-- C5: every crop-health row's index is `max 60 (80 - 0.8*(Y-2010) + noise)`
with the noise draw selected by the row's (region, year) pair; region identity
has no other effect, so rows whose noise draws agree have equal indices. -/
theorem C5_health_formula (n : Noise) :
    (∀ r ∈ (load_data n).crop_health_df,
      r.crop_health_index =
        max 60 (80 - 0.8 * ((r.year : ℚ) - 2010) + n.health r.region r.year)) ∧
    (∀ r₁ ∈ (load_data n).crop_health_df, ∀ r₂ ∈ (load_data n).crop_health_df,
      r₁.year = r₂.year →
      n.health r₁.region r₁.year = n.health r₂.region r₂.year →
      r₁.crop_health_index = r₂.crop_health_index) := by
  have hform : ∀ r ∈ (load_data n).crop_health_df,
      r.crop_health_index =
        max 60 (80 - 0.8 * ((r.year : ℚ) - 2010) + n.health r.region r.year) := by
    intro r hr
    simp only [load_data, List.mem_flatMap, List.mem_map] at hr
    obtain ⟨region, -, y, -, rfl⟩ := hr
    rfl
  refine ⟨hform, ?_⟩
  intro r₁ h₁ r₂ h₂ hyear hnoise
  rw [hform r₁ h₁, hform r₂ h₂, hnoise, hyear]

/-- Witness for C5 at zero noise on two rows of different regions in the same
year 2012 (rows 2 and 30), which share the noise value 0 and hence the index. -/
theorem C5_health_formula_witness :
    ((load_data zeroNoise).crop_health_df.get ⟨2, by decide⟩).crop_health_index =
      ((load_data zeroNoise).crop_health_df.get ⟨30, by decide⟩).crop_health_index :=
  (C5_health_formula zeroNoise).2 _ (List.get_mem _ _ _) _ (List.get_mem _ _ _)
    rfl rfl

/-- C6: every failure of the image fetch — transport exception, non-200
status, or decoding exception — is caught locally, showing the placeholder
and a warning; success (status 200, decodable payload) shows the fetched
image with no warning.  In every case the block returns normally (one of the
two shapes), so no exception propagates. -/
theorem C6_image_fetch_fallback (env : FetchEnv) :
    ((∃ img, tab2ImageBlock env = ⟨.fetched img, none⟩) ∨
     (∃ w, tab2ImageBlock env = ⟨.placeholder, some w⟩)) ∧
    (∀ m, env.response = .error m →
      tab2ImageBlock env =
        ⟨.placeholder, some ("Unable to load satellite image. Error: " ++ m)⟩) ∧
    (∀ resp, env.response = .ok resp → resp.status_code ≠ 200 →
      tab2ImageBlock env =
        ⟨.placeholder, some ("Unable to load satellite image. Error: "
          ++ ("HTTP Error: " ++ toString resp.status_code))⟩) ∧
    (∀ resp m, env.response = .ok resp → resp.status_code = 200 →
      env.image_open resp.raw = .error m →
      tab2ImageBlock env =
        ⟨.placeholder, some ("Unable to load satellite image. Error: " ++ m)⟩) ∧
    (∀ resp img, env.response = .ok resp → resp.status_code = 200 →
      env.image_open resp.raw = .ok img →
      tab2ImageBlock env = ⟨.fetched img, none⟩) := by
  refine ⟨?_, ?_, ?_, ?_, ?_⟩
  · rcases h : tryFetchImage env with e | img
    · exact Or.inr ⟨"Unable to load satellite image. Error: " ++ e,
        by simp [tab2ImageBlock, h]⟩
    · exact Or.inl ⟨img, by simp [tab2ImageBlock, h]⟩
  · intro m hm
    simp [tab2ImageBlock, tryFetchImage_of_error env m hm]
  · intro resp hresp hne
    have hbeq : (resp.status_code == 200) = false := by
      simpa using hne
    simp [tab2ImageBlock, tryFetchImage_of_ok env resp hresp, hbeq]
  · intro resp m hresp h200 hopen
    simp [tab2ImageBlock, tryFetchImage_of_ok env resp hresp, h200, hopen]
  · intro resp img hresp h200 hopen
    simp [tab2ImageBlock, tryFetchImage_of_ok env resp hresp, h200, hopen]

/-- Witness for C6: an HTTP 404 response yields the placeholder plus warning. -/
theorem C6_image_fetch_fallback_witness :
    tab2ImageBlock ⟨.ok ⟨404, "payload"⟩, fun raw => .ok raw⟩ =
      ⟨.placeholder, some ("Unable to load satellite image. Error: "
        ++ ("HTTP Error: " ++ toString (404 : ℕ)))⟩ :=
  (C6_image_fetch_fallback _).2.2.1 ⟨404, "payload"⟩ rfl (by decide)

/-- C7: within one process, the tables are computed at most once — every
invocation of `load_data` after the first returns the identical cached
result, regardless of the fresh noise the later invocations would have
drawn, with no invalidation or expiry. -/
theorem C7_cache_hit (n₀ : Noise) (ns : List Noise) :
    observedResults none (n₀ :: ns) =
      List.replicate (ns.length + 1) (load_data n₀) := by
  have hsome : ∀ (v : LoadDataResult) (ms : List Noise),
      observedResults (some v) ms = List.replicate ms.length v := by
    intro v ms
    induction ms with
    | nil => rfl
    | cons m t ih =>
      simpa [observedResults, cachedCall, List.replicate_succ] using ih
  simp [observedResults, cachedCall, hsome, List.replicate_succ]

/-- C8: the crop-type derivation of source line 132 defaults to Sugarcane —
Wheat when the name contains "Wheat", else Maize when it contains "Maize",
else Sugarcane for every other name. -/
theorem C8_crop_type_default (name : String) :
    (strContains name "Wheat" = true → cropTypeOf name = "Wheat") ∧
    (strContains name "Wheat" = false → strContains name "Maize" = true →
      cropTypeOf name = "Maize") ∧
    (strContains name "Wheat" = false → strContains name "Maize" = false →
      cropTypeOf name = "Sugarcane") := by
  refine ⟨fun hw => ?_, fun hw hm => ?_, fun hw hm => ?_⟩ <;>
    simp [cropTypeOf, hw]
  · simp [hm]
  · simp [hm]

/-- Witness for C8: a region name containing neither "Wheat" nor "Maize" is
assigned Sugarcane. -/
theorem C8_crop_type_default_witness :
    cropTypeOf "Limpopo Citrus" = "Sugarcane" :=
  (C8_crop_type_default "Limpopo Citrus").2.2 (by decide) (by decide)

/-- C9: for every region of the fixed region set and every historical year,
exactly one crop-health row matches, so the tab-2 health indicator (the mean
over matching rows) equals the single generated Crop Health Index value. -/
theorem C9_unique_row_mean (n : Noise) (region : String) (year : ℕ)
    (hr : region ∈ regionsList.map Prod.fst) (hy : year ∈ years) :
    (healthRows (load_data n).crop_health_df region year).length = 1 ∧
    healthValue (load_data n).crop_health_df region year =
      max 60 (80 - 0.8 * ((year : ℚ) - 2010) + n.health region year) := by
  have hrows : healthRows (load_data n).crop_health_df region year =
      [mkRow n region year] := by
    rw [healthRows, crop_health_df_eq]
    rw [show regionsList.map Prod.fst =
      ["Western Cape Wheat", "Free State Maize", "KZN Sugarcane"] from rfl] at hr ⊢
    simp only [List.flatMap_cons, List.flatMap_nil, List.append_nil,
      List.filter_append]
    simp only [List.mem_cons, List.not_mem_nil, or_false] at hr
    rcases hr with rfl | rfl | rfl
    · rw [healthRows_map_eq n _ year years years_nodup hy,
        healthRows_map_ne n _ _ year years (by decide),
        healthRows_map_ne n _ _ year years (by decide)]
      rfl
    · rw [healthRows_map_eq n _ year years years_nodup hy,
        healthRows_map_ne n _ _ year years (by decide),
        healthRows_map_ne n _ _ year years (by decide)]
      rfl
    · rw [healthRows_map_eq n _ year years years_nodup hy,
        healthRows_map_ne n _ _ year years (by decide),
        healthRows_map_ne n _ _ year years (by decide)]
      rfl
  refine ⟨by rw [hrows]; rfl, ?_⟩
  rw [healthValue, hrows]
  simp [mkRow]

/-- Witness for C9: Western Cape Wheat in 2015 selects exactly one row whose
value the indicator reports. -/
theorem C9_unique_row_mean_witness :
    (healthRows (load_data zeroNoise).crop_health_df
      "Western Cape Wheat" 2015).length = 1 :=
  (C9_unique_row_mean zeroNoise "Western Cape Wheat" 2015
    (by decide) (by decide)).1

/-- C10: after any session history with at least one rerun, the selected
season is one of Planting/Growth/Harvest; with no button ever pressed it is
the default "Planting"; and a rerun whose (single) pressed button is
Planting, Growth or Harvest selects exactly that value. -/
theorem C10_season_selection (bs : List SeasonButtons) (b : SeasonButtons) :
    ((runSeasons (bs ++ [b])).crop_season = some "Planting" ∨
     (runSeasons (bs ++ [b])).crop_season = some "Growth" ∨
     (runSeasons (bs ++ [b])).crop_season = some "Harvest") ∧
    ((∀ b' ∈ bs ++ [b], b'.planting_btn = false ∧ b'.growth_btn = false ∧
        b'.harvest_btn = false) →
      (runSeasons (bs ++ [b])).crop_season = some "Planting") ∧
    (b.planting_btn = true → b.growth_btn = false → b.harvest_btn = false →
      (runSeasons (bs ++ [b])).crop_season = some "Planting") ∧
    (b.growth_btn = true → b.harvest_btn = false →
      (runSeasons (bs ++ [b])).crop_season = some "Growth") ∧
    (b.harvest_btn = true →
      (runSeasons (bs ++ [b])).crop_season = some "Harvest") := by
  have hsplit : runSeasons (bs ++ [b]) = seasonUpdate (runSeasons bs) b := by
    rw [runSeasons, List.foldl_append]
    rfl
  refine ⟨?_, ?_, ?_, ?_, ?_⟩
  · rw [hsplit]
    rcases runSeasons_valid bs with h | h | h | h
    · exact seasonUpdate_valid _ b (Or.inl h)
    · exact seasonUpdate_valid _ b (Or.inr (Or.inl h))
    · exact seasonUpdate_valid _ b (Or.inr (Or.inr (Or.inl h)))
    · exact seasonUpdate_valid _ b (Or.inr (Or.inr (Or.inr h)))
  · intro hall
    have hbs : ∀ b' ∈ bs, b'.planting_btn = false ∧ b'.growth_btn = false ∧
        b'.harvest_btn = false := fun b' hb' =>
      hall b' (List.mem_append.2 (Or.inl hb'))
    have hb : b.planting_btn = false ∧ b.growth_btn = false ∧
        b.harvest_btn = false := hall b (List.mem_append.2 (Or.inr (by simp)))
    rw [hsplit]
    exact seasonUpdate_no_press _ b hb
      (foldl_no_press bs { crop_season := none } hbs (Or.inl rfl))
  · intro hp hg hh
    rw [hsplit]
    obtain ⟨cs⟩ := runSeasons bs
    obtain ⟨bp, bg, bh⟩ := b
    simp only at hp hg hh
    subst hp; subst hg; subst hh
    simp [seasonUpdate]
  · intro hg hh
    rw [hsplit]
    obtain ⟨cs⟩ := runSeasons bs
    obtain ⟨bp, bg, bh⟩ := b
    simp only at hg hh
    subst hg; subst hh
    simp [seasonUpdate]
  · intro hh
    rw [hsplit]
    obtain ⟨cs⟩ := runSeasons bs
    obtain ⟨bp, bg, bh⟩ := b
    simp only at hh
    subst hh
    simp [seasonUpdate]

/-- Witness for C10: a fresh session followed by one rerun pressing only the
Growth button selects "Growth". -/
theorem C10_season_selection_witness :
    (runSeasons ([] ++ [⟨false, true, false⟩])).crop_season = some "Growth" :=
  (C10_season_selection [] ⟨false, true, false⟩).2.2.2.1 rfl rfl

end ClimateSA
